import Mathlib

/-!
Verification of `txt::FontCollection`
(src/engine/src/flutter/txt/src/txt/font_collection.cc).

The registry holds four optional font-manager slots, a fallback flag, and a
lazily built cached composite (`skia::textlayout::FontCollection`).  Font
managers (`sk_sp<SkFontMgr>`, possibly null) are modelled as `Option Nat`,
the `Nat` standing for the pointer identity of the manager.  Object identity
of the composite is modelled with an explicit allocation counter `nextId`
carried in the registry state: each fresh `sk_make_sp` allocation stamps the
new composite with the current counter and bumps it, so two composites built
by distinct allocations carry distinct `id` fields.
-/

namespace FontModel

/-- Pointer identity of an `SkFontMgr`; a nullable `sk_sp<SkFontMgr>` is
`Option FontMgr`. -/
abbrev FontMgr := Nat

/-- Modelled from the spec: the external collaborator
`skia::textlayout::FontCollection` (spec section 6: a provider-handle sink
supporting default/asset/dynamic/test wiring, a default-family list, a live
disable-fallback toggle, and a cache-clear instruction).  Its code is not
part of this repository; only the fields the registry touches are modelled.
`fFamilyCache` is the internal per-family lookup memo. -/
structure SktFontCollection where
  id : Nat
  fDefaultFontManager : Option FontMgr := none
  fDefaultFamilyNames : List String := []
  fAssetFontManager : Option FontMgr := none
  fDynamicFontManager : Option FontMgr := none
  fTestFontManager : Option FontMgr := none
  fEnableFontFallback : Bool := true
  fFamilyCache : List (String × Nat) := []
  deriving Repr, DecidableEq

/-- Modelled from the spec: `setDefaultFontManager(mgr, families)` on the
composite wires the default slot together with the default-family list. -/
def SktFontCollection.setDefaultFontManager (c : SktFontCollection)
    (m : Option FontMgr) (fams : List String) : SktFontCollection :=
  { c with fDefaultFontManager := m, fDefaultFamilyNames := fams }

/-- Modelled from the spec: `setAssetFontManager` wires the asset slot. -/
def SktFontCollection.setAssetFontManager (c : SktFontCollection)
    (m : Option FontMgr) : SktFontCollection :=
  { c with fAssetFontManager := m }

/-- Modelled from the spec: `setDynamicFontManager` wires the dynamic slot. -/
def SktFontCollection.setDynamicFontManager (c : SktFontCollection)
    (m : Option FontMgr) : SktFontCollection :=
  { c with fDynamicFontManager := m }

/-- Modelled from the spec: `setTestFontManager` wires the test slot. -/
def SktFontCollection.setTestFontManager (c : SktFontCollection)
    (m : Option FontMgr) : SktFontCollection :=
  { c with fTestFontManager := m }

/-- Modelled from the spec: the composite's live disable-fallback toggle. -/
def SktFontCollection.disableFontFallback (c : SktFontCollection) :
    SktFontCollection :=
  { c with fEnableFontFallback := false }

/-- Modelled from the spec: `clearCaches` drops the per-family memo without
touching provider wiring or the fallback flag. -/
def SktFontCollection.clearCaches (c : SktFontCollection) : SktFontCollection :=
  { c with fFamilyCache := [] }

/-- The platform services consumed through txt/platform.h
(`GetDefaultFontManager`, `GetDefaultFontFamilies`); their code is outside
this unit, so the model is parametric in them. -/
structure Platform where
  GetDefaultFontManager : Nat → Option FontMgr
  GetDefaultFontFamilies : List String

/-- State of `txt::FontCollection`: the four provider slots, the fallback
flag, the cached composite, plus the allocation counter `nextId` modelling
`sk_make_sp` object identity. -/
structure FontCollection where
  dynamic_font_manager_ : Option FontMgr := none
  asset_font_manager_ : Option FontMgr := none
  test_font_manager_ : Option FontMgr := none
  default_font_manager_ : Option FontMgr := none
  enable_font_fallback_ : Bool := true
  skt_collection_ : Option SktFontCollection := none
  nextId : Nat := 0
  deriving Repr, DecidableEq

/-- `FontCollection::FontCollection()`: fallback enabled, all slots empty,
no composite. -/
def FontCollection.init : FontCollection := {}

/-- `FontCollection::GetFontManagerOrder`: push the dynamic, asset, test and
default managers, in that order, skipping null slots. -/
def FontCollection.GetFontManagerOrder (s : FontCollection) : List FontMgr :=
  (match s.dynamic_font_manager_ with | some m => [m] | none => []) ++
  (match s.asset_font_manager_ with | some m => [m] | none => []) ++
  (match s.test_font_manager_ with | some m => [m] | none => []) ++
  (match s.default_font_manager_ with | some m => [m] | none => [])

/-- `FontCollection::GetFontManagersCount`: the size of the order vector. -/
def FontCollection.GetFontManagersCount (s : FontCollection) : Nat :=
  s.GetFontManagerOrder.length

/-- `FontCollection::SetupDefaultFontManager`: builds the platform default
manager from the opaque data and stores it, resetting the composite. -/
def FontCollection.SetupDefaultFontManager (p : Platform) (s : FontCollection)
    (fontInitData : Nat) : FontCollection :=
  { s with default_font_manager_ := p.GetDefaultFontManager fontInitData,
           skt_collection_ := none }

/-- `FontCollection::SetDefaultFontManager`: overwrite the default slot and
reset the composite. -/
def FontCollection.SetDefaultFontManager (s : FontCollection)
    (m : Option FontMgr) : FontCollection :=
  { s with default_font_manager_ := m, skt_collection_ := none }

/-- `FontCollection::SetAssetFontManager`: overwrite the asset slot and
reset the composite. -/
def FontCollection.SetAssetFontManager (s : FontCollection)
    (m : Option FontMgr) : FontCollection :=
  { s with asset_font_manager_ := m, skt_collection_ := none }

/-- `FontCollection::SetDynamicFontManager`: overwrite the dynamic slot and
reset the composite. -/
def FontCollection.SetDynamicFontManager (s : FontCollection)
    (m : Option FontMgr) : FontCollection :=
  { s with dynamic_font_manager_ := m, skt_collection_ := none }

/-- `FontCollection::SetTestFontManager`: overwrite the test slot and reset
the composite. -/
def FontCollection.SetTestFontManager (s : FontCollection)
    (m : Option FontMgr) : FontCollection :=
  { s with test_font_manager_ := m, skt_collection_ := none }

/-- `FontCollection::DisableFontFallback`: clear the flag and, if a composite
exists, propagate the disablement into it in place.  The composite is NOT
reset. -/
def FontCollection.DisableFontFallback (s : FontCollection) : FontCollection :=
  { s with enable_font_fallback_ := false,
           skt_collection_ :=
             s.skt_collection_.map SktFontCollection.disableFontFallback }

/-- `FontCollection::ClearFontFamilyCache`: if a composite exists, clear its
per-family caches; otherwise do nothing. -/
def FontCollection.ClearFontFamilyCache (s : FontCollection) : FontCollection :=
  { s with skt_collection_ :=
             s.skt_collection_.map SktFontCollection.clearCaches }

/-- `FontCollection::CreateSktFontCollection`: return the cached composite if
present; otherwise allocate a fresh one, wire the default slot with the
platform default families, wire the asset/dynamic/test slots, apply the
fallback flag if disabled, cache it and return it.  Returns the composite
together with the updated registry state. -/
def FontCollection.CreateSktFontCollection (p : Platform) (s : FontCollection) :
    SktFontCollection × FontCollection :=
  match s.skt_collection_ with
  | some c => (c, s)
  | none =>
    let c0 : SktFontCollection := { id := s.nextId }
    let c1 := c0.setDefaultFontManager s.default_font_manager_
        p.GetDefaultFontFamilies
    let c2 := c1.setAssetFontManager s.asset_font_manager_
    let c3 := c2.setDynamicFontManager s.dynamic_font_manager_
    let c4 := c3.setTestFontManager s.test_font_manager_
    let c5 := if s.enable_font_fallback_ then c4 else c4.disableFontFallback
    (c5, { s with skt_collection_ := some c5, nextId := s.nextId + 1 })

/-- The public operations of the registry, for temporal properties. -/
inductive Op where
  | setupDefault (fontInitData : Nat)
  | setDefault (m : Option FontMgr)
  | setAsset (m : Option FontMgr)
  | setDynamic (m : Option FontMgr)
  | setTest (m : Option FontMgr)
  | disableFallback
  | clearFamilyCache
  | createSkt
  deriving Repr, DecidableEq

/-- State effect of one public operation. -/
def step (p : Platform) (op : Op) (s : FontCollection) : FontCollection :=
  match op with
  | .setupDefault d => s.SetupDefaultFontManager p d
  | .setDefault m => s.SetDefaultFontManager m
  | .setAsset m => s.SetAssetFontManager m
  | .setDynamic m => s.SetDynamicFontManager m
  | .setTest m => s.SetTestFontManager m
  | .disableFallback => s.DisableFontFallback
  | .clearFamilyCache => s.ClearFontFamilyCache
  | .createSkt => (s.CreateSktFontCollection p).2

/-- Run a sequence of public operations. -/
def runOps (p : Platform) (ops : List Op) (s : FontCollection) :
    FontCollection :=
  ops.foldl (fun st op => step p op st) s

/-- The five provider-slot mutators (the ones that reset the composite). -/
def Op.isSlotMutator : Op → Bool
  | .setupDefault _ => true
  | .setDefault _ => true
  | .setAsset _ => true
  | .setDynamic _ => true
  | .setTest _ => true
  | _ => false

/-- The allocation-counter invariant: any cached composite was stamped with
an id strictly below the counter, so a fresh allocation gets a new id. -/
def GoodIds (s : FontCollection) : Bool :=
  s.skt_collection_.all fun c => decide (c.id < s.nextId)

/-- The provider order as the spec words it: the non-empty slots in the
fixed priority order dynamic, asset, test, default, empty slots skipped. -/
def ComputeProviderOrderSpec (s : FontCollection) : List FontMgr :=
  [s.dynamic_font_manager_, s.asset_font_manager_,
   s.test_font_manager_, s.default_font_manager_].filterMap id

/-- Number of non-empty provider slots. -/
def populatedCount (s : FontCollection) : Nat :=
  [s.dynamic_font_manager_, s.asset_font_manager_,
   s.test_font_manager_, s.default_font_manager_].countP Option.isSome

/-- Concrete platform used to instantiate universally quantified theorems. -/
def pTest : Platform :=
  { GetDefaultFontManager := fun d => some (100 + d),
    GetDefaultFontFamilies := ["Roboto"] }

/-- A concrete composite already cached in `sTest`. -/
def cTest : SktFontCollection :=
  { id := 0, fDefaultFontManager := some 7, fDefaultFamilyNames := ["Roboto"],
    fAssetFontManager := some 3, fDynamicFontManager := none,
    fTestFontManager := none, fEnableFontFallback := true,
    fFamilyCache := [("Roboto", 42)] }

/-- A concrete registry state holding the composite `cTest`. -/
def sTest : FontCollection :=
  { dynamic_font_manager_ := none, asset_font_manager_ := some 3,
    test_font_manager_ := none, default_font_manager_ := some 7,
    enable_font_fallback_ := true, skt_collection_ := some cTest,
    nextId := 1 }

/-- A concrete registry state with no cached composite. -/
def sNone : FontCollection :=
  { dynamic_font_manager_ := none, asset_font_manager_ := some 3,
    test_font_manager_ := none, default_font_manager_ := some 7,
    enable_font_fallback_ := true, skt_collection_ := none, nextId := 5 }

/-- A freshly built composite mirrors the registry state it was built from:
slots, platform default families, and the fallback flag. -/
def Reflects (s : FontCollection) (c : SktFontCollection) (p : Platform) :
    Prop :=
  c.fDynamicFontManager = s.dynamic_font_manager_ ∧
  c.fAssetFontManager = s.asset_font_manager_ ∧
  c.fTestFontManager = s.test_font_manager_ ∧
  c.fDefaultFontManager = s.default_font_manager_ ∧
  c.fDefaultFamilyNames = p.GetDefaultFontFamilies ∧
  c.fEnableFontFallback = s.enable_font_fallback_

instance (s : FontCollection) (c : SktFontCollection) (p : Platform) :
    Decidable (Reflects s c p) := by
  unfold Reflects; infer_instance

theorem createSkt_of_cached (p : Platform) {s : FontCollection}
    {c : SktFontCollection} (h : s.skt_collection_ = some c) :
    s.CreateSktFontCollection p = (c, s) := by
  simp [FontCollection.CreateSktFontCollection, h]

theorem createSkt_fresh (p : Platform) {s : FontCollection}
    (h : s.skt_collection_ = none) :
    (s.CreateSktFontCollection p).1.id = s.nextId ∧
    Reflects s ((s.CreateSktFontCollection p).1) p ∧
    (s.CreateSktFontCollection p).2 =
      { s with skt_collection_ := some ((s.CreateSktFontCollection p).1),
               nextId := s.nextId + 1 } := by
  simp only [FontCollection.CreateSktFontCollection, h]
  cases hf : s.enable_font_fallback_ <;>
    simp [Reflects, SktFontCollection.setDefaultFontManager,
      SktFontCollection.setAssetFontManager,
      SktFontCollection.setDynamicFontManager,
      SktFontCollection.setTestFontManager,
      SktFontCollection.disableFontFallback, hf]

theorem createSkt_caches (p : Platform) (s : FontCollection) :
    ((s.CreateSktFontCollection p).2).skt_collection_ =
      some ((s.CreateSktFontCollection p).1) := by
  cases h : s.skt_collection_ with
  | some c => simp [createSkt_of_cached p h, h]
  | none => exact ((createSkt_fresh p h).2.2 ▸ rfl)

/-- `n`-fold iterated call: `callN p s n` is the pair returned by the
`(n+1)`-st consecutive `CreateSktFontCollection` call starting at `s`. -/
def callN (p : Platform) (s : FontCollection) : Nat →
    SktFontCollection × FontCollection
  | 0 => s.CreateSktFontCollection p
  | n + 1 => ((callN p s n).2).CreateSktFontCollection p

/-- C2: caching idempotence: for every registry state, every consecutive
`CreateSktFontCollection` call with no intervening mutator returns the very
same composite object and leaves the state fixed, no matter how many times
it is called. -/
theorem createSktFontCollection_idempotent (p : Platform) (s : FontCollection)
    (n : Nat) : callN p s n = s.CreateSktFontCollection p := by
  induction n with
  | zero => rfl
  | succ n ih =>
    show ((callN p s n).2).CreateSktFontCollection p = _
    rw [ih]
    rw [createSkt_of_cached p (createSkt_caches p s)]

/-- C10: `CreateSktFontCollection` never mutates the configuration: the four
provider slots and the fallback flag are exactly what they were before. -/
theorem createSktFontCollection_frame (p : Platform) (s : FontCollection) :
    ((s.CreateSktFontCollection p).2).dynamic_font_manager_ =
        s.dynamic_font_manager_ ∧
    ((s.CreateSktFontCollection p).2).asset_font_manager_ =
        s.asset_font_manager_ ∧
    ((s.CreateSktFontCollection p).2).test_font_manager_ =
        s.test_font_manager_ ∧
    ((s.CreateSktFontCollection p).2).default_font_manager_ =
        s.default_font_manager_ ∧
    ((s.CreateSktFontCollection p).2).enable_font_fallback_ =
        s.enable_font_fallback_ := by
  cases h : s.skt_collection_ with
  | some c => simp [createSkt_of_cached p h]
  | none => rw [(createSkt_fresh p h).2.2]; exact ⟨rfl, rfl, rfl, rfl, rfl⟩

theorem slotMutator_resets (p : Platform) (op : Op) (s : FontCollection)
    (h : op.isSlotMutator = true) :
    (step p op s).skt_collection_ = none ∧
    (step p op s).nextId = s.nextId := by
  cases op <;> simp_all [Op.isSlotMutator, step,
    FontCollection.SetupDefaultFontManager,
    FontCollection.SetDefaultFontManager,
    FontCollection.SetAssetFontManager,
    FontCollection.SetDynamicFontManager,
    FontCollection.SetTestFontManager]

/-- C3: after any provider-slot mutator on a registry holding a built
composite, the next `CreateSktFontCollection` returns an object of different
identity, built from the updated slot state; likewise, after
`DisableFontFallback` on a registry with no composite yet, the next call
builds a fresh composite from the updated state with fallback disabled. -/
theorem slot_mutator_invalidates_composite (p : Platform)
    (s : FontCollection) :
    (∀ op : Op, op.isSlotMutator = true → ∀ c0 : SktFontCollection,
      GoodIds s = true → s.skt_collection_ = some c0 →
      ((step p op s).CreateSktFontCollection p).1.id ≠ c0.id ∧
      Reflects (step p op s) (((step p op s).CreateSktFontCollection p).1) p) ∧
    (s.skt_collection_ = none →
      ((s.DisableFontFallback).CreateSktFontCollection p).1.id = s.nextId ∧
      ((s.DisableFontFallback).CreateSktFontCollection
          p).1.fEnableFontFallback = false ∧
      Reflects (s.DisableFontFallback)
        (((s.DisableFontFallback).CreateSktFontCollection p).1) p) := by
  constructor
  · intro op hop c0 hg hc
    obtain ⟨hnone, hnext⟩ := slotMutator_resets p op s hop
    obtain ⟨hid, hrefl, -⟩ := createSkt_fresh p hnone
    refine ⟨?_, hrefl⟩
    rw [hid, hnext]
    have : c0.id < s.nextId := by
      rw [GoodIds, hc] at hg; simpa using hg
    omega
  · intro hnone
    have hnone' : (s.DisableFontFallback).skt_collection_ = none := by
      simp [FontCollection.DisableFontFallback, hnone]
    obtain ⟨hid, hrefl, -⟩ := createSkt_fresh p hnone'
    refine ⟨hid, ?_, hrefl⟩
    have := hrefl.2.2.2.2.2
    simp [FontCollection.DisableFontFallback] at this
    exact this

/-- Witness for C3: at the concrete state `sTest` (composite `cTest` cached)
the asset-slot mutator forces the next build to a different identity. -/
theorem slot_mutator_invalidates_composite_witness :
    ((step pTest (.setAsset (some 9)) sTest).CreateSktFontCollection
        pTest).1.id ≠ cTest.id ∧
    Reflects (step pTest (.setAsset (some 9)) sTest)
      (((step pTest (.setAsset (some 9)) sTest).CreateSktFontCollection
          pTest).1) pTest :=
  (slot_mutator_invalidates_composite pTest sTest).1 (.setAsset (some 9))
    (by decide) cTest (by decide) (by decide)

/-- C1: for every registry state, `GetFontManagerOrder` returns exactly the
non-empty slots in the fixed priority order dynamic, asset, test, default,
skipping empty slots with no placeholder entries. -/
theorem getFontManagerOrder_fixed_priority (s : FontCollection) :
    s.GetFontManagerOrder = ComputeProviderOrderSpec s := by
  obtain ⟨d, a, t, df, f, k, n⟩ := s
  cases d <;> cases a <;> cases t <;> cases df <;> rfl

/-- C4: in every registry state, `GetFontManagersCount` equals the length of
`GetFontManagerOrder`, which is the number of populated slots (0 to 4). -/
theorem getFontManagersCount_eq_order_length (s : FontCollection) :
    s.GetFontManagersCount = s.GetFontManagerOrder.length ∧
    s.GetFontManagersCount = populatedCount s := by
  refine ⟨rfl, ?_⟩
  obtain ⟨d, a, t, df, f, k, n⟩ := s
  cases d <;> cases a <;> cases t <;> cases df <;> rfl

theorem goodIds_init : GoodIds FontCollection.init = true := rfl

theorem goodIds_step (p : Platform) (op : Op) (s : FontCollection)
    (h : GoodIds s = true) : GoodIds (step p op s) = true := by
  cases op with
  | setupDefault d => simp [step, GoodIds, FontCollection.SetupDefaultFontManager]
  | setDefault m => simp [step, GoodIds, FontCollection.SetDefaultFontManager]
  | setAsset m => simp [step, GoodIds, FontCollection.SetAssetFontManager]
  | setDynamic m => simp [step, GoodIds, FontCollection.SetDynamicFontManager]
  | setTest m => simp [step, GoodIds, FontCollection.SetTestFontManager]
  | disableFallback =>
    cases hk : s.skt_collection_ <;>
      simp_all [step, GoodIds, FontCollection.DisableFontFallback,
        SktFontCollection.disableFontFallback, hk]
  | clearFamilyCache =>
    cases hk : s.skt_collection_ <;>
      simp_all [step, GoodIds, FontCollection.ClearFontFamilyCache,
        SktFontCollection.clearCaches, hk]
  | createSkt =>
    cases hk : s.skt_collection_ with
    | some c => simp_all [step, createSkt_of_cached p hk]
    | none =>
      obtain ⟨hid, -, hstate⟩ := createSkt_fresh p hk
      simp [step, GoodIds, hstate, hid]

/-- Once fallback is disabled, the flag is off and every cached composite has
its own fallback toggle off. -/
def FallbackOff (s : FontCollection) : Bool :=
  !s.enable_font_fallback_ &&
    s.skt_collection_.all fun c => !c.fEnableFontFallback

theorem fallbackOff_disable (s : FontCollection) :
    FallbackOff (s.DisableFontFallback) = true := by
  cases hk : s.skt_collection_ <;>
    simp [FallbackOff, FontCollection.DisableFontFallback,
      SktFontCollection.disableFontFallback, hk]

theorem fallbackOff_step (p : Platform) (op : Op) (s : FontCollection)
    (h : FallbackOff s = true) : FallbackOff (step p op s) = true := by
  rw [FallbackOff, Bool.and_eq_true] at h
  obtain ⟨h1, h2⟩ := h
  have hflag : s.enable_font_fallback_ = false := by simpa using h1
  cases op with
  | setupDefault d =>
    simp [step, FallbackOff, FontCollection.SetupDefaultFontManager, hflag]
  | setDefault m =>
    simp [step, FallbackOff, FontCollection.SetDefaultFontManager, hflag]
  | setAsset m =>
    simp [step, FallbackOff, FontCollection.SetAssetFontManager, hflag]
  | setDynamic m =>
    simp [step, FallbackOff, FontCollection.SetDynamicFontManager, hflag]
  | setTest m =>
    simp [step, FallbackOff, FontCollection.SetTestFontManager, hflag]
  | disableFallback => exact fallbackOff_disable s
  | clearFamilyCache =>
    cases hk : s.skt_collection_ <;>
      simp_all [step, FallbackOff, FontCollection.ClearFontFamilyCache,
        SktFontCollection.clearCaches, hk, hflag]
  | createSkt =>
    cases hk : s.skt_collection_ with
    | some c =>
      rw [step, createSkt_of_cached p hk, FallbackOff, Bool.and_eq_true]
      refine ⟨by simpa using hflag, ?_⟩
      simpa [hk] using h2
    | none =>
      obtain ⟨-, hrefl, hstate⟩ := createSkt_fresh p hk
      have hc : ((s.CreateSktFontCollection p).1).fEnableFontFallback =
          false := by rw [hrefl.2.2.2.2.2]; exact hflag
      simp [step, FallbackOff, hstate, hc, hflag]

theorem fallbackOff_runOps (p : Platform) (ops : List Op) :
    ∀ s : FontCollection, FallbackOff s = true →
      FallbackOff (runOps p ops s) = true := by
  induction ops with
  | nil => intro s h; exact h
  | cons op ops ih =>
    intro s h
    exact ih (step p op s) (fallbackOff_step p op s h)

/-- C5: fallback disablement is one-way: after `DisableFontFallback`, no
sequence of public operations ever re-enables the flag, and every composite
cached at any later point (including rebuilds after slot mutations) has its
fallback toggle off. -/
theorem disableFontFallback_one_way (p : Platform) (s : FontCollection)
    (ops : List Op) :
    (runOps p ops (s.DisableFontFallback)).enable_font_fallback_ = false ∧
    ((runOps p ops (s.DisableFontFallback)).skt_collection_.all
        fun c => !c.fEnableFontFallback) = true := by
  have h := fallbackOff_runOps p ops (s.DisableFontFallback)
    (fallbackOff_disable s)
  rw [FallbackOff, Bool.and_eq_true] at h
  exact ⟨by simpa using h.1, h.2⟩

/-- C6: `ClearFontFamilyCache` does not invalidate: with a composite `c1`
cached and no other mutator, the next `CreateSktFontCollection` returns the
same object (same identity) with only the per-family memo cleared, and the
slots and flag are unchanged. -/
theorem clearFontFamilyCache_preserves_composite_identity (p : Platform)
    (s : FontCollection) (c1 : SktFontCollection)
    (h : s.skt_collection_ = some c1) :
    (s.ClearFontFamilyCache).dynamic_font_manager_ =
        s.dynamic_font_manager_ ∧
    (s.ClearFontFamilyCache).asset_font_manager_ = s.asset_font_manager_ ∧
    (s.ClearFontFamilyCache).test_font_manager_ = s.test_font_manager_ ∧
    (s.ClearFontFamilyCache).default_font_manager_ =
        s.default_font_manager_ ∧
    (s.ClearFontFamilyCache).enable_font_fallback_ =
        s.enable_font_fallback_ ∧
    ((s.ClearFontFamilyCache).CreateSktFontCollection p).1 =
      { c1 with fFamilyCache := [] } ∧
    ((s.ClearFontFamilyCache).CreateSktFontCollection p).1.id = c1.id := by
  have hk : (s.ClearFontFamilyCache).skt_collection_ =
      some c1.clearCaches := by
    simp [FontCollection.ClearFontFamilyCache, h]
  rw [createSkt_of_cached p hk]
  exact ⟨rfl, rfl, rfl, rfl, rfl, rfl, rfl⟩

/-- Witness for C6 at the concrete cached state `sTest`. -/
theorem clearFontFamilyCache_preserves_composite_identity_witness :
    (sTest.ClearFontFamilyCache).dynamic_font_manager_ =
        sTest.dynamic_font_manager_ ∧
    (sTest.ClearFontFamilyCache).asset_font_manager_ =
        sTest.asset_font_manager_ ∧
    (sTest.ClearFontFamilyCache).test_font_manager_ =
        sTest.test_font_manager_ ∧
    (sTest.ClearFontFamilyCache).default_font_manager_ =
        sTest.default_font_manager_ ∧
    (sTest.ClearFontFamilyCache).enable_font_fallback_ =
        sTest.enable_font_fallback_ ∧
    ((sTest.ClearFontFamilyCache).CreateSktFontCollection pTest).1 =
      { cTest with fFamilyCache := [] } ∧
    ((sTest.ClearFontFamilyCache).CreateSktFontCollection pTest).1.id =
      cTest.id :=
  clearFontFamilyCache_preserves_composite_identity pTest sTest cTest rfl

/-- Counterexample to C7 as stated: at the concrete state `sTest` (composite
`cTest` cached), `DisableFontFallback` leaves the composite present, and the
next `CreateSktFontCollection` returns the object with the SAME identity —
fallback disablement does not invalidate the cache. -/
theorem disableFontFallback_invalidates_cex :
    (sTest.DisableFontFallback).skt_collection_.isSome = true ∧
    ((sTest.DisableFontFallback).CreateSktFontCollection pTest).1.id =
      cTest.id := by
  exact ⟨rfl, rfl⟩

/-- C7 amended: `DisableFontFallback` on a registry holding a built composite
does NOT invalidate it (unlike a provider-slot reassignment): the composite
stays cached with the disablement propagated in place, and the next
`CreateSktFontCollection` returns the same object (same identity). -/
theorem disableFontFallback_no_invalidation (p : Platform)
    (s : FontCollection) (c : SktFontCollection)
    (h : s.skt_collection_ = some c) :
    (s.DisableFontFallback).skt_collection_ =
      some (c.disableFontFallback) ∧
    ((s.DisableFontFallback).CreateSktFontCollection p).1.id = c.id := by
  have hk : (s.DisableFontFallback).skt_collection_ =
      some (c.disableFontFallback) := by
    simp [FontCollection.DisableFontFallback, h]
  rw [createSkt_of_cached p hk]
  exact ⟨hk, rfl⟩

/-- Witness for the amended C7 at the concrete cached state `sTest`. -/
theorem disableFontFallback_no_invalidation_witness :
    (sTest.DisableFontFallback).skt_collection_ =
      some (cTest.disableFontFallback) ∧
    ((sTest.DisableFontFallback).CreateSktFontCollection pTest).1.id =
      cTest.id :=
  disableFontFallback_no_invalidation pTest sTest cTest rfl

/-- C8: when a composite exists, `DisableFontFallback` clears the flag and
propagates the disablement into the existing composite in place, and the
next `CreateSktFontCollection` returns that same object (same identity);
when no composite exists, only the flag is set (slots and absent composite
unchanged) and the next build honors the disablement. -/
theorem disableFontFallback_in_place (p : Platform) (s : FontCollection) :
    (∀ c : SktFontCollection, s.skt_collection_ = some c →
      (s.DisableFontFallback).enable_font_fallback_ = false ∧
      (s.DisableFontFallback).skt_collection_ =
        some (c.disableFontFallback) ∧
      ((s.DisableFontFallback).CreateSktFontCollection p).1 =
        c.disableFontFallback ∧
      ((s.DisableFontFallback).CreateSktFontCollection p).1.id = c.id) ∧
    (s.skt_collection_ = none →
      (s.DisableFontFallback).enable_font_fallback_ = false ∧
      (s.DisableFontFallback).skt_collection_ = none ∧
      (s.DisableFontFallback).dynamic_font_manager_ =
        s.dynamic_font_manager_ ∧
      (s.DisableFontFallback).asset_font_manager_ =
        s.asset_font_manager_ ∧
      (s.DisableFontFallback).test_font_manager_ = s.test_font_manager_ ∧
      (s.DisableFontFallback).default_font_manager_ =
        s.default_font_manager_ ∧
      ((s.DisableFontFallback).CreateSktFontCollection
          p).1.fEnableFontFallback = false) := by
  constructor
  · intro c h
    have hk : (s.DisableFontFallback).skt_collection_ =
        some (c.disableFontFallback) := by
      simp [FontCollection.DisableFontFallback, h]
    rw [createSkt_of_cached p hk]
    exact ⟨rfl, hk, rfl, rfl⟩
  · intro h
    have hk : (s.DisableFontFallback).skt_collection_ = none := by
      simp [FontCollection.DisableFontFallback, h]
    obtain ⟨-, hrefl, -⟩ := createSkt_fresh p hk
    refine ⟨rfl, hk, rfl, rfl, rfl, rfl, ?_⟩
    rw [hrefl.2.2.2.2.2]
    rfl

/-- Witness for C8: the in-place case at `sTest` (composite cached) and the
flag-only case at `sNone` (no composite). -/
theorem disableFontFallback_in_place_witness :
    ((sTest.DisableFontFallback).CreateSktFontCollection pTest).1 =
      cTest.disableFontFallback ∧
    (sNone.DisableFontFallback).skt_collection_ = none ∧
    ((sNone.DisableFontFallback).CreateSktFontCollection
        pTest).1.fEnableFontFallback = false :=
  ⟨((disableFontFallback_in_place pTest sTest).1 cTest rfl).2.2.1,
   ((disableFontFallback_in_place pTest sNone).2 rfl).2.1,
   ((disableFontFallback_in_place pTest sNone).2 rfl).2.2.2.2.2.2⟩

/-- C9: `ClearFontFamilyCache` with no composite built (or after
invalidation) is a complete no-op: the state, slots, flag and
absent-composite field are all exactly unchanged. -/
theorem clearFontFamilyCache_noop_when_absent (s : FontCollection)
    (h : s.skt_collection_ = none) : s.ClearFontFamilyCache = s := by
  obtain ⟨d, a, t, df, f, k, n⟩ := s
  have hk : k = none := h
  subst hk
  rfl

/-- Witness for C9 at the concrete composite-free state `sNone`. -/
theorem clearFontFamilyCache_noop_when_absent_witness :
    sNone.ClearFontFamilyCache = sNone :=
  clearFontFamilyCache_noop_when_absent sNone rfl

end FontModel
